import Mathlib

/-!
Shallow embedding of `extensions/ffmpeg/src/main/jni/ffmpeg_jni.cc`: the JNI
decode bridge driving libavcodec's send-packet/receive-frame API.

The FFmpeg library itself is external; its responses at each call site
(`avcodec_send_packet`, `avcodec_receive_frame`, `avresample_*`, allocators)
are modelled as explicit oracle inputs so that theorems quantify over every
possible library behaviour.  The bridge's own control flow — argument guards,
the feed stage's error classification, the drain loop, the per-media-type
output materialisation, context create/reset/release — is translated
statement by statement from the source.

The source guards the audio output stage with `#ifdef ENABLE_AUDIO` and the
video stage with `#ifdef ENABLE_VIDEO`; we embed both branches as written,
since the specification and the claims describe both stages.
-/

/-- `AVERROR(EINVAL)` = -22 on Linux/Android. -/
def AVERROR_EINVAL : Int := -22

/-- `AVERROR(EAGAIN)` = -11 on Linux/Android. -/
def AVERROR_EAGAIN : Int := -11

/-- `AVERROR(ENOMEM)` = -12 on Linux/Android. -/
def AVERROR_ENOMEM : Int := -12

/-- `AVERROR_EOF` = FFERRTAG('E','O','F',' '). -/
def AVERROR_EOF : Int := -541478725

/-- `AVERROR_INVALIDDATA` = FFERRTAG('I','N','D','A'). -/
def AVERROR_INVALIDDATA : Int := -1094995529

/-- `AVERROR_BUFFER_TOO_SMALL` = FFERRTAG('B','U','F','S'). -/
def AVERROR_BUFFER_TOO_SMALL : Int := -1397118274

/-- `AVERROR_BUG` = FFERRTAG('B','U','G','!'). -/
def AVERROR_BUG : Int := -558323010

/-- `AV_INPUT_BUFFER_PADDING_SIZE` in the FFmpeg 3.x/4.x line this bridge
builds against. -/
def AV_INPUT_BUFFER_PADDING_SIZE : Nat := 32

/-- `sizeof(jlong)`: the size of one opaque video frame handle. -/
def SIZEOF_JLONG : Int := 8

/-- Codec identities; only `AV_CODEC_ID_TRUEHD` is distinguished by the
bridge (the reset workaround), all others are parametrised. -/
inductive AVCodecID where
  | AV_CODEC_ID_TRUEHD
  | otherCodec (n : Nat)
deriving DecidableEq, Repr

/-- Media types; the bridge only tests `codec_type == AVMEDIA_TYPE_VIDEO`,
every other type falls into the audio branch.  `AVMEDIA_TYPE_SOUND` stands
for the library's audio media type. -/
inductive AVMediaType where
  | AVMEDIA_TYPE_VIDEO
  | AVMEDIA_TYPE_SOUND
deriving DecidableEq, Repr

/-- Sample formats with their `av_get_bytes_per_sample` sizes. -/
inductive AVSampleFormat where
  | AV_SAMPLE_FMT_U8
  | AV_SAMPLE_FMT_S16
  | AV_SAMPLE_FMT_S32
  | AV_SAMPLE_FMT_FLT
  | AV_SAMPLE_FMT_DBL
deriving DecidableEq, Repr

def av_get_bytes_per_sample : AVSampleFormat → Int
  | .AV_SAMPLE_FMT_U8 => 1
  | .AV_SAMPLE_FMT_S16 => 2
  | .AV_SAMPLE_FMT_S32 => 4
  | .AV_SAMPLE_FMT_FLT => 4
  | .AV_SAMPLE_FMT_DBL => 8

/-- `static const AVSampleFormat OUTPUT_FORMAT = AV_SAMPLE_FMT_S16`. -/
def OUTPUT_FORMAT : AVSampleFormat := .AV_SAMPLE_FMT_S16

/-- An `AVCodec`: a decoder implementation handle from the registry. -/
structure AVCodec where
  codec_id : AVCodecID
  codec_type : AVMediaType
deriving DecidableEq, Repr

/-- The configuration of an `AVAudioResampleContext` as set by the
`av_opt_set_int` calls in the audio branch of `decodePacket`. -/
structure Resampler where
  in_channel_layout : Int
  out_channel_layout : Int
  in_sample_rate : Int
  out_sample_rate : Int
  in_sample_fmt : AVSampleFormat
  out_sample_fmt : AVSampleFormat
deriving DecidableEq, Repr

/-- The fields of an `AVCodecContext` that the bridge reads or writes.
`id` models the pointer identity of the heap object; `resamplerSlot` models the source field `opaque`, the
session's side-channel slot, holding the lazily created resampler. -/
structure AVCodecContext where
  id : Nat
  codec_id : AVCodecID
  codec_type : AVMediaType
  request_sample_fmt : AVSampleFormat
  sample_fmt : AVSampleFormat
  channels : Int
  channel_layout : Int
  sample_rate : Int
  delay : Int
  extradata : Option (List Int)
  extradata_size : Int
  resamplerSlot : Option Resampler
deriving DecidableEq, Repr

/-- The library responses consumed while processing one decoded frame in the
drain loop: the video frame's pointer value, and the audio-path responses of
`avresample_get_out_samples`, `avresample_open` (used only when the resampler
is created on this frame), `avresample_convert` and `avresample_available`. -/
structure AVFrameData where
  handle : Int
  nb_samples : Int
  outSamples : Int
  openResult : Int
  convertResult : Int
  availableAfter : Int
deriving DecidableEq, Repr

/-- One iteration of the drain loop, as seen from the library side:
`av_frame_alloc` fails, or `avcodec_receive_frame` returns a nonzero code,
or it returns a decoded frame. -/
inductive DrainStep where
  | allocFail
  | recvErr (code : Int)
  | recvFrame (f : AVFrameData)
deriving DecidableEq, Repr

/-- A write the bridge performs into the caller's output buffer: the opaque
video frame handle at an offset, or `size` audio bytes at an offset. -/
inductive WriteEvent where
  | videoHandle (offset : Int) (handle : Int)
  | audioBytes (offset : Int) (size : Int)
deriving DecidableEq, Repr

/-- Result of one `decodePacket` call: the returned int, the ordered list of
writes into the output buffer, the context as left behind (the `resamplerSlot` slot, modelling the source field `opaque`,
may have been populated), and whether `avcodec_send_packet` was invoked. -/
structure DecodeOutcome where
  ret : Int
  writes : List WriteEvent
  ctx : AVCodecContext
  sendCalled : Bool
deriving DecidableEq, Repr

/-- The library behaviour for one `decodePacket` call: the result
`avcodec_send_packet` would return if invoked, and the successive drain-loop
responses.  An exhausted list behaves like `avcodec_receive_frame` reporting
`AVERROR(EAGAIN)` from then on. -/
structure LibBehavior where
  sendResult : Int
  steps : List DrainStep
deriving DecidableEq, Repr

/-- The resampler constructed in the audio branch when `context->opaque` is
null: in/out channel layout and sample rate are the context's, the input
sample format is the context's, the output format is `OUTPUT_FORMAT`. -/
def mkResampler (context : AVCodecContext) : Resampler :=
  { in_channel_layout := context.channel_layout
    out_channel_layout := context.channel_layout
    in_sample_rate := context.sample_rate
    out_sample_rate := context.sample_rate
    in_sample_fmt := context.sample_fmt
    out_sample_fmt := OUTPUT_FORMAT }

/-- Outcome of processing one audio frame: a fatal code ending the call, or
the number of bytes appended; both carry the (possibly updated) context. -/
inductive AudioStepResult where
  | fatal (code : Int) (ctx : AVCodecContext)
  | ok (bufferOutSize : Int) (ctx : AVCodecContext)
deriving DecidableEq, Repr

/-- The audio part of the drain-loop body after the resampler `r` is in the
context (modelling the source `opaque` slot): compute `bufferOutSize`, check capacity, convert,
check for residual samples (lines 389-414 of the source). -/
def audioAfterResampler (context : AVCodecContext) (f : AVFrameData)
    (outSize outputLimit : Int) : AudioStepResult :=
  let outSampleSize := av_get_bytes_per_sample OUTPUT_FORMAT
  let bufferOutSize := outSampleSize * context.channels * f.outSamples
  if outSize + bufferOutSize > outputLimit then
    .fatal AVERROR_BUFFER_TOO_SMALL context
  else if f.convertResult ≠ 0 then
    .fatal f.convertResult context
  else if f.availableAfter ≠ 0 then
    .fatal AVERROR_BUG context
  else
    .ok bufferOutSize context

/-- The audio branch of the drain-loop body (lines 361-414 of the source):
fetch or lazily create the resampler, then convert. -/
def processAudioFrame (context : AVCodecContext) (f : AVFrameData)
    (outSize outputLimit : Int) : AudioStepResult :=
  match context.resamplerSlot with
  | some _ => audioAfterResampler context f outSize outputLimit
  | none =>
    if f.openResult ≠ 0 then
      .fatal f.openResult context
    else
      audioAfterResampler { context with resamplerSlot := some (mkResampler context) }
        f outSize outputLimit

/-- The drain loop of `decodePacket` (lines 326-421 of the source), recursing
on the list of library responses.  `outSize` is both the byte count
accumulated so far and the current write offset into the output buffer;
`ws` is the accumulated write log. -/
def drainLoop (outputLimit : Int) (sendCalled : Bool) :
    AVCodecContext → List DrainStep → Int → List WriteEvent → DecodeOutcome
  | context, [], outSize, ws =>
    { ret := outSize, writes := ws, ctx := context, sendCalled := sendCalled }
  | context, .allocFail :: _, _, ws =>
    { ret := AVERROR_ENOMEM, writes := ws, ctx := context, sendCalled := sendCalled }
  | context, .recvErr code :: _, outSize, ws =>
    if code = AVERROR_EAGAIN then
      { ret := outSize, writes := ws, ctx := context, sendCalled := sendCalled }
    else
      { ret := code, writes := ws, ctx := context, sendCalled := sendCalled }
  | context, .recvFrame f :: rest, outSize, ws =>
    if context.codec_type = .AVMEDIA_TYPE_VIDEO then
      if outputLimit < SIZEOF_JLONG then
        { ret := AVERROR_BUFFER_TOO_SMALL, writes := ws, ctx := context,
          sendCalled := sendCalled }
      else
        { ret := SIZEOF_JLONG, writes := ws ++ [.videoHandle 0 f.handle],
          ctx := context, sendCalled := sendCalled }
    else
      match processAudioFrame context f outSize outputLimit with
      | .fatal code context2 =>
        { ret := code, writes := ws, ctx := context2, sendCalled := sendCalled }
      | .ok bufferOutSize context2 =>
        drainLoop outputLimit sendCalled context2 rest (outSize + bufferOutSize)
          (ws ++ [.audioBytes outSize bufferOutSize])

/-- `decodePacket` (lines 303-422 of the source): feed stage then drain
stage.  `packetSize` is `packet->size`; `lib` supplies the library's
responses. -/
def decodePacket (context : AVCodecContext) (packetSize : Int)
    (endOfInput : Bool) (outputLimit : Int) (lib : LibBehavior) : DecodeOutcome :=
  if packetSize > 0 ∨ endOfInput = true then
    if lib.sendResult ≠ 0 ∧ lib.sendResult ≠ AVERROR_EOF then
      if lib.sendResult = AVERROR_INVALIDDATA then
        drainLoop outputLimit true context lib.steps 0 []
      else
        { ret := lib.sendResult, writes := [], ctx := context, sendCalled := true }
    else
      drainLoop outputLimit true context lib.steps 0 []
  else
    drainLoop outputLimit false context lib.steps 0 []

/-- Result of `nativeDecode`: either an argument error returned before any
library interaction, or the outcome of running `decodePacket`. -/
inductive NativeDecodeResult where
  | argError (code : Int)
  | ran (o : DecodeOutcome)
deriving DecidableEq, Repr

/-- `nativeDecode` (lines 119-147 of the source): the four argument guards,
then packet construction and `decodePacket`.  `inputNonNull` and
`outputNonNull` model the nullness of the two direct buffers. -/
def nativeDecode (context : Option AVCodecContext) (inputNonNull : Bool)
    (inputSize : Int) (_pts : Int) (endOfInput : Bool) (outputNonNull : Bool)
    (outputLimit : Int) (lib : LibBehavior) : NativeDecodeResult :=
  match context with
  | none => .argError AVERROR_EINVAL
  | some ctx =>
    if inputNonNull = false ∨ outputNonNull = false then
      .argError AVERROR_EINVAL
    else if inputSize < 0 then
      .argError AVERROR_EINVAL
    else if outputLimit < 0 then
      .argError AVERROR_EINVAL
    else
      .ran (decodePacket ctx inputSize endOfInput outputLimit lib)

/-- `getCodecByName` (lines 261-269 of the source): a null name short-circuits
to null, otherwise `avcodec_find_decoder_by_name` (the registry oracle) is
consulted. -/
def getCodecByName (registry : String → Option AVCodec)
    (codecName : Option String) : Option AVCodec :=
  match codecName with
  | none => none
  | some name => registry name

/-- `nativeHasDecoder` (lines 106-108 of the source). -/
def nativeHasDecoder (registry : String → Option AVCodec)
    (codecName : Option String) : Bool :=
  (getCodecByName registry codecName).isSome

/-- Stream parameters that `avcodec_open2` establishes on the context from
the codec and init data; supplied by the library oracle. -/
structure StreamInfo where
  sample_fmt : AVSampleFormat
  channels : Int
  channel_layout : Int
  sample_rate : Int
  delay : Int
deriving DecidableEq, Repr

/-- The library/allocator responses consumed by one `createContext` call:
whether `avcodec_alloc_context3` and the extradata `av_malloc` succeed, the
uninitialised bytes `av_malloc` leaves in the padding region, the
`avcodec_open2` result, the stream parameters it establishes, and the
identity of the freshly allocated context. -/
structure CreateEnv where
  ctxAllocOk : Bool
  extradataAllocOk : Bool
  allocResidue : List Int
  openResult : Int
  streamInfo : StreamInfo
  freshId : Nat
deriving DecidableEq, Repr

/-- The contents `av_malloc` leaves in the `AV_INPUT_BUFFER_PADDING_SIZE`
trailing bytes of the extradata region: arbitrary residue, not zeroed. -/
def paddingBytes (env : CreateEnv) : List Int :=
  (env.allocResidue ++ List.replicate AV_INPUT_BUFFER_PADDING_SIZE 0).take
    AV_INPUT_BUFFER_PADDING_SIZE

/-- `createContext` (lines 271-301 of the source): allocate the context, set
`request_sample_fmt`, copy the extradata (the padding bytes keep whatever
residue the allocator handed back — the source uses `av_malloc`, which does
not zero), open the codec, and zero `delay` for video. -/
def createContext (codec : AVCodec) (extraData : Option (List Int))
    (env : CreateEnv) : Option AVCodecContext :=
  if env.ctxAllocOk = false then
    none
  else
    let context0 : AVCodecContext :=
      { id := env.freshId
        codec_id := codec.codec_id
        codec_type := codec.codec_type
        request_sample_fmt := OUTPUT_FORMAT
        sample_fmt := env.streamInfo.sample_fmt
        channels := env.streamInfo.channels
        channel_layout := env.streamInfo.channel_layout
        sample_rate := env.streamInfo.sample_rate
        delay := env.streamInfo.delay
        extradata := none
        extradata_size := 0
        resamplerSlot := none }
    let withExtra : Option AVCodecContext :=
      match extraData with
      | none => some context0
      | some bytes =>
        if env.extradataAllocOk = false then
          none
        else
          some { context0 with
                  extradata_size := (bytes.length : Int)
                  extradata := some (bytes ++ paddingBytes env) }
    match withExtra with
    | none => none
    | some context1 =>
      if env.openResult < 0 then
        none
      else if context1.codec_type = .AVMEDIA_TYPE_VIDEO then
        some { context1 with delay := 0 }
      else
        some context1

/-- `nativeInitialize` (lines 110-117 of the source): resolve the codec by
name, then create the context; `none` models the zero handle. -/
def nativeInitialize (registry : String → Option AVCodec)
    (codecName : Option String) (extraData : Option (List Int))
    (env : CreateEnv) : Option AVCodecContext :=
  match getCodecByName registry codecName with
  | none => none
  | some codec => createContext codec extraData env

/-- Result of `nativeReset`: the returned handle (`none` models 0), whether
the pre-existing context was destroyed by `releaseContext`, and whether
`avcodec_flush_buffers` was invoked on it. -/
structure ResetOutcome where
  ret : Option AVCodecContext
  oldDestroyed : Bool
  flushCalled : Bool
deriving DecidableEq, Repr

/-- `nativeReset` (lines 231-253 of the source): for `AV_CODEC_ID_TRUEHD`
the context is released and recreated via `avcodec_find_decoder` (the
`findDecoder` oracle) and `createContext`; every other codec identity is
flushed in place and the same handle returned. -/
def nativeReset (context : Option AVCodecContext)
    (extraData : Option (List Int)) (findDecoder : AVCodecID → Option AVCodec)
    (env : CreateEnv) : ResetOutcome :=
  match context with
  | none => { ret := none, oldDestroyed := false, flushCalled := false }
  | some c =>
    if c.codec_id = .AV_CODEC_ID_TRUEHD then
      match findDecoder c.codec_id with
      | none => { ret := none, oldDestroyed := true, flushCalled := false }
      | some codec =>
        { ret := createContext codec extraData env, oldDestroyed := true,
          flushCalled := false }
    else
      { ret := some c, oldDestroyed := false, flushCalled := true }

/-- Result of `releaseContext` (lines 431-444 of the source): whether an
attached resampler was freed, whether the context itself was freed, and the
state of the side-channel slot at the moment the context is freed (always
cleared first). -/
structure ReleaseOutcome where
  resamplerFreed : Bool
  ctxFreed : Bool
  finalSlot : Option Resampler
deriving DecidableEq, Repr

/-- `releaseContext`: a null context is a no-op; otherwise free the attached
resampler (if any), clear the slot, then free the context. -/
def releaseContext (context : Option AVCodecContext) : ReleaseOutcome :=
  match context with
  | none => { resamplerFreed := false, ctxFreed := false, finalSlot := none }
  | some c =>
    match c.resamplerSlot with
    | some _ => { resamplerFreed := true, ctxFreed := true, finalSlot := none }
    | none => { resamplerFreed := false, ctxFreed := true, finalSlot := none }

/-- `nativeRelease` (lines 255-259 of the source). -/
def nativeRelease (context : Option AVCodecContext) : ReleaseOutcome :=
  match context with
  | none => { resamplerFreed := false, ctxFreed := false, finalSlot := none }
  | some c => releaseContext (some c)

/-! ## Concrete fixtures used by witnesses -/

def testStreamInfo : StreamInfo :=
  { sample_fmt := .AV_SAMPLE_FMT_FLT, channels := 2, channel_layout := 3,
    sample_rate := 48000, delay := 1 }

def envOk : CreateEnv :=
  { ctxAllocOk := true, extradataAllocOk := true,
    allocResidue := List.replicate 32 170, openResult := 0,
    streamInfo := testStreamInfo, freshId := 7 }

def ctxVideo : AVCodecContext :=
  { id := 1, codec_id := .otherCodec 27, codec_type := .AVMEDIA_TYPE_VIDEO,
    request_sample_fmt := OUTPUT_FORMAT, sample_fmt := .AV_SAMPLE_FMT_FLT,
    channels := 0, channel_layout := 0, sample_rate := 0, delay := 0,
    extradata := none, extradata_size := 0, resamplerSlot := none }

def ctxAudio : AVCodecContext :=
  { id := 2, codec_id := .otherCodec 86018, codec_type := .AVMEDIA_TYPE_SOUND,
    request_sample_fmt := OUTPUT_FORMAT, sample_fmt := .AV_SAMPLE_FMT_FLT,
    channels := 2, channel_layout := 3, sample_rate := 44100, delay := 0,
    extradata := none, extradata_size := 0, resamplerSlot := none }

def ctxTrueHd : AVCodecContext :=
  { id := 3, codec_id := .AV_CODEC_ID_TRUEHD, codec_type := .AVMEDIA_TYPE_SOUND,
    request_sample_fmt := OUTPUT_FORMAT, sample_fmt := .AV_SAMPLE_FMT_S32,
    channels := 6, channel_layout := 63, sample_rate := 48000, delay := 0,
    extradata := none, extradata_size := 0, resamplerSlot := none }

def trueHdCodec : AVCodec :=
  { codec_id := .AV_CODEC_ID_TRUEHD, codec_type := .AVMEDIA_TYPE_SOUND }

def testFrame : AVFrameData :=
  { handle := 555, nb_samples := 100, outSamples := 100, openResult := 0,
    convertResult := 0, availableAfter := 0 }

def envAllocFail : CreateEnv :=
  { envOk with ctxAllocOk := false }

/-- A registry oracle in which the TrueHD decoder is found. -/
def findTrueHd : AVCodecID → Option AVCodec := fun _ => some trueHdCodec

/-- A registry oracle in which no decoder lookup succeeds. -/
def findNothing : AVCodecID → Option AVCodec := fun _ => none

/-- The audio session fixture with a resampler already attached. -/
def ctxAudioR : AVCodecContext :=
  { ctxAudio with resamplerSlot := some (mkResampler ctxAudio) }

/-- The context carried by an `AudioStepResult` (both constructors). -/
def AudioStepResult.context : AudioStepResult → AVCodecContext
  | .fatal _ c => c
  | .ok _ c => c

/-! ## Helper lemmas -/

/-- Whenever the feed stage does not end the call (nothing to submit, or the
submission result is 0, end-of-file, or invalid-data), `decodePacket` runs
the drain loop from a zero cursor and an empty write log. -/
lemma decodePacket_reaches_drain (context : AVCodecContext) (packetSize : Int)
    (endOfInput : Bool) (outputLimit : Int) (lib : LibBehavior)
    (hfeed : (¬ packetSize > 0 ∧ endOfInput = false) ∨ lib.sendResult = 0 ∨
      lib.sendResult = AVERROR_EOF ∨ lib.sendResult = AVERROR_INVALIDDATA) :
    ∃ sc, decodePacket context packetSize endOfInput outputLimit lib =
      drainLoop outputLimit sc context lib.steps 0 [] := by
  by_cases hsubmit : packetSize > 0 ∨ endOfInput = true
  · refine ⟨true, ?_⟩
    rcases hfeed with ⟨hp, he⟩ | h0 | hEof | hInv
    · rcases hsubmit with h | h
      · exact absurd h hp
      · rw [he] at h; exact absurd h (by simp)
    · simp only [decodePacket, if_pos hsubmit, h0]
      norm_num
    · simp only [decodePacket, if_pos hsubmit, hEof]
      norm_num
    · simp only [decodePacket, if_pos hsubmit, hInv]
      norm_num [AVERROR_INVALIDDATA, AVERROR_EOF]
  · exact ⟨false, by simp only [decodePacket, if_neg hsubmit]⟩

/-! ## C1: feed-stage error classification -/

/-- C1: when a packet is submitted (non-empty data or end-of-stream), an
`AVERROR_INVALIDDATA` submission result is downgraded to success-with-zero-
effect and the call proceeds to the drain stage; an `AVERROR_EOF` ("no more
input accepted") result proceeds to the drain stage without signaling
failure; any other non-zero submission result is returned immediately, with
no drain step taken and nothing written. -/
theorem decode_feed_classification (context : AVCodecContext)
    (packetSize : Int) (endOfInput : Bool) (outputLimit : Int)
    (lib : LibBehavior) (hsubmit : packetSize > 0 ∨ endOfInput = true) :
    (lib.sendResult = AVERROR_INVALIDDATA →
      decodePacket context packetSize endOfInput outputLimit lib =
        drainLoop outputLimit true context lib.steps 0 []) ∧
    (lib.sendResult = AVERROR_EOF →
      decodePacket context packetSize endOfInput outputLimit lib =
        drainLoop outputLimit true context lib.steps 0 []) ∧
    (lib.sendResult ≠ 0 → lib.sendResult ≠ AVERROR_EOF →
      lib.sendResult ≠ AVERROR_INVALIDDATA →
      decodePacket context packetSize endOfInput outputLimit lib =
        { ret := lib.sendResult, writes := [], ctx := context,
          sendCalled := true }) := by
  refine ⟨?_, ?_, ?_⟩
  · intro h
    simp only [decodePacket, if_pos hsubmit, h]
    norm_num [AVERROR_INVALIDDATA, AVERROR_EOF]
  · intro h
    simp only [decodePacket, if_pos hsubmit, h]
    norm_num
  · intro h0 hEof hInv
    simp only [decodePacket, if_pos hsubmit]
    rw [if_pos ⟨h0, hEof⟩, if_neg hInv]

/-- C1 witness: a concrete invalid-data submission is downgraded and the
call drains. -/
theorem decode_feed_classification_witness :
    decodePacket ctxVideo 1 false 8 ⟨AVERROR_INVALIDDATA, []⟩ =
      drainLoop 8 true ctxVideo [] 0 [] :=
  (decode_feed_classification ctxVideo 1 false 8 ⟨AVERROR_INVALIDDATA, []⟩
    (Or.inl (by norm_num))).1 rfl

/-! ## C2: video yields exactly one frame handle per call -/

/-- C2: for a video session whose drain stage yields a decoded frame, the
call fails with `AVERROR_BUFFER_TOO_SMALL` when the output capacity cannot
hold one pointer-sized handle, and otherwise writes exactly one opaque frame
handle at offset 0 and returns the handle's size immediately — regardless of
any further pending library output, so no call returns more than one
frame. -/
theorem decode_video_single_frame (context : AVCodecContext)
    (packetSize : Int) (endOfInput : Bool) (outputLimit : Int)
    (lib : LibBehavior) (f : AVFrameData) (rest : List DrainStep)
    (hvideo : context.codec_type = .AVMEDIA_TYPE_VIDEO)
    (hfeed : (¬ packetSize > 0 ∧ endOfInput = false) ∨ lib.sendResult = 0 ∨
      lib.sendResult = AVERROR_EOF ∨ lib.sendResult = AVERROR_INVALIDDATA)
    (hsteps : lib.steps = .recvFrame f :: rest) :
    (outputLimit < SIZEOF_JLONG →
      (decodePacket context packetSize endOfInput outputLimit lib).ret =
          AVERROR_BUFFER_TOO_SMALL ∧
      (decodePacket context packetSize endOfInput outputLimit lib).writes =
          []) ∧
    (SIZEOF_JLONG ≤ outputLimit →
      (decodePacket context packetSize endOfInput outputLimit lib).ret =
          SIZEOF_JLONG ∧
      (decodePacket context packetSize endOfInput outputLimit lib).writes =
          [.videoHandle 0 f.handle]) := by
  obtain ⟨sc, hdrain⟩ := decodePacket_reaches_drain context packetSize
    endOfInput outputLimit lib hfeed
  rw [hsteps] at hdrain
  constructor
  · intro hsmall
    rw [hdrain]
    simp only [drainLoop, hvideo, if_pos hsmall]
    exact ⟨rfl, rfl⟩
  · intro hfits
    rw [hdrain]
    simp only [drainLoop, hvideo, if_neg (not_lt.mpr hfits)]
    exact ⟨rfl, rfl⟩

/-- C2 witness: a video frame drained into an 8-byte buffer returns 8 and
writes the single handle. -/
theorem decode_video_single_frame_witness :
    (decodePacket ctxVideo 1 false 8
        ⟨0, [.recvFrame testFrame, .recvFrame testFrame]⟩).ret = SIZEOF_JLONG ∧
    (decodePacket ctxVideo 1 false 8
        ⟨0, [.recvFrame testFrame, .recvFrame testFrame]⟩).writes =
      [.videoHandle 0 testFrame.handle] :=
  (decode_video_single_frame ctxVideo 1 false 8
    ⟨0, [.recvFrame testFrame, .recvFrame testFrame]⟩ testFrame
    [.recvFrame testFrame] rfl (Or.inr (Or.inl rfl)) rfl).2
    (by norm_num [SIZEOF_JLONG])

/-! ## C4: argument guards -/

/-- C4: a null session, null input or output buffer, negative input size or
negative output capacity makes `nativeDecode` return `AVERROR(EINVAL)`
before any library interaction (the `argError` constructor is produced by
the guards alone; `decodePacket` is never entered). -/
theorem nativeDecode_arg_guard (context : Option AVCodecContext)
    (inputNonNull : Bool) (inputSize pts : Int) (endOfInput : Bool)
    (outputNonNull : Bool) (outputLimit : Int) (lib : LibBehavior)
    (h : context = none ∨ inputNonNull = false ∨ outputNonNull = false ∨
      inputSize < 0 ∨ outputLimit < 0) :
    nativeDecode context inputNonNull inputSize pts endOfInput outputNonNull
      outputLimit lib = .argError AVERROR_EINVAL := by
  cases context with
  | none => rfl
  | some ctx =>
    simp only [nativeDecode]
    by_cases h1 : inputNonNull = false ∨ outputNonNull = false
    · rw [if_pos h1]
    · rw [if_neg h1]
      by_cases h2 : inputSize < 0
      · rw [if_pos h2]
      · rw [if_neg h2]
        by_cases h3 : outputLimit < 0
        · rw [if_pos h3]
        · exfalso
          rcases h with h | h | h | h | h
          · exact Option.noConfusion h
          · exact h1 (Or.inl h)
          · exact h1 (Or.inr h)
          · exact h2 h
          · exact h3 h

/-- C4 witness: a negative input size is rejected with `AVERROR(EINVAL)`. -/
theorem nativeDecode_arg_guard_witness :
    nativeDecode (some ctxVideo) true (-1) 0 false true 8 ⟨0, []⟩ =
      .argError AVERROR_EINVAL :=
  nativeDecode_arg_guard (some ctxVideo) true (-1) 0 false true 8 ⟨0, []⟩
    (Or.inr (Or.inr (Or.inr (Or.inl (by norm_num)))))

/-! ## C3: reset — flush in place, except the TrueHD reopen workaround -/

/-- C3: resetting a non-null session whose codec identity is TrueHD destroys
the existing context and recreates one via `createContext` with the decoder
found for the same codec identity and the provided init data (returning the
new handle, or 0 when lookup or creation fails); every other codec identity
is flushed in place and the same handle is returned. -/
theorem nativeReset_flush_or_reopen (c : AVCodecContext)
    (extraData : Option (List Int)) (findDecoder : AVCodecID → Option AVCodec)
    (env : CreateEnv) :
    (c.codec_id = .AV_CODEC_ID_TRUEHD →
      (findDecoder c.codec_id = none →
        nativeReset (some c) extraData findDecoder env =
          { ret := none, oldDestroyed := true, flushCalled := false }) ∧
      (∀ codec, findDecoder c.codec_id = some codec →
        nativeReset (some c) extraData findDecoder env =
          { ret := createContext codec extraData env, oldDestroyed := true,
            flushCalled := false })) ∧
    (c.codec_id ≠ .AV_CODEC_ID_TRUEHD →
      nativeReset (some c) extraData findDecoder env =
        { ret := some c, oldDestroyed := false, flushCalled := true }) := by
  constructor
  · intro h
    constructor
    · intro hf
      simp only [nativeReset, if_pos h, hf]
    · intro codec hf
      simp only [nativeReset, if_pos h, hf]
  · intro h
    simp only [nativeReset, if_neg h]

/-- C3 witness: resetting a TrueHD session with the decoder present reopens
with the same codec; resetting a plain audio session flushes in place. -/
theorem nativeReset_flush_or_reopen_witness :
    nativeReset (some ctxTrueHd) (some [7]) findTrueHd envOk =
      { ret := createContext trueHdCodec (some [7]) envOk,
        oldDestroyed := true, flushCalled := false } ∧
    nativeReset (some ctxAudio) none findTrueHd envOk =
      { ret := some ctxAudio, oldDestroyed := false, flushCalled := true } :=
  ⟨((nativeReset_flush_or_reopen ctxTrueHd (some [7]) findTrueHd envOk).1
      rfl).2 trueHdCodec rfl,
   (nativeReset_flush_or_reopen ctxAudio none findTrueHd envOk).2 (by decide)⟩

/-! ## C9: the TrueHD reset path is not atomic on failure -/

/-- C9: when reset takes the TrueHD workaround path and the codec lookup or
the context re-creation fails, the call returns 0 even though the original
context has already been destroyed. -/
theorem nativeReset_truehd_not_atomic (c : AVCodecContext)
    (extraData : Option (List Int)) (findDecoder : AVCodecID → Option AVCodec)
    (env : CreateEnv) (h : c.codec_id = .AV_CODEC_ID_TRUEHD)
    (hfail : findDecoder c.codec_id = none ∨
      ∃ codec, findDecoder c.codec_id = some codec ∧
        createContext codec extraData env = none) :
    (nativeReset (some c) extraData findDecoder env).ret = none ∧
    (nativeReset (some c) extraData findDecoder env).oldDestroyed = true := by
  rcases hfail with hf | ⟨codec, hf, hc⟩
  · simp [nativeReset, if_pos h, hf]
  · simp [nativeReset, if_pos h, hf, hc]

/-- C9 witness: a TrueHD reset whose context allocation fails reports 0
with the old context already gone. -/
theorem nativeReset_truehd_not_atomic_witness :
    (nativeReset (some ctxTrueHd) none findTrueHd envAllocFail).ret = none ∧
    (nativeReset (some ctxTrueHd) none findTrueHd
        envAllocFail).oldDestroyed = true :=
  nativeReset_truehd_not_atomic ctxTrueHd none findTrueHd envAllocFail rfl
    (Or.inr ⟨trueHdCodec, rfl, rfl⟩)

/-! ## C10: a null codec name resolves to not-found -/

/-- C10: a null codec name short-circuits the registry lookup to not-found,
so `nativeHasDecoder` answers false and `nativeInitialize` returns the zero
handle, with no argument error raised. -/
theorem null_codec_name_not_found (registry : String → Option AVCodec)
    (extraData : Option (List Int)) (env : CreateEnv) :
    getCodecByName registry none = none ∧
    nativeHasDecoder registry none = false ∧
    nativeInitialize registry none extraData env = none :=
  ⟨rfl, rfl, rfl⟩

/-! ## C6: extradata copy — the trailing padding is not zeroed -/

/-- C6 counterexample: the source allocates the side-data region with
`av_malloc`, which does not zero memory, so at a concrete input (one init
byte, allocator residue bytes 170) the region is the init byte followed by
non-zero residue, not zero padding; the recorded size is still the init
data length. -/
theorem createContext_zero_padding_cex :
    ∃ ctx, createContext trueHdCodec (some [7]) envOk = some ctx ∧
      ctx.extradata_size = 1 ∧
      ctx.extradata ≠
        some (([7] : List Int) ++
          List.replicate AV_INPUT_BUFFER_PADDING_SIZE 0) := by
  refine ⟨_, rfl, by decide, by decide⟩

/-- C6 amended: the init bytes are copied to the start of a side-data region
sized `initData.length + AV_INPUT_BUFFER_PADDING_SIZE`; the trailing padding
bytes keep whatever contents the allocator handed back (they are not
zeroed), and the recorded side-data size equals the init data length. -/
theorem createContext_extradata_copy (codec : AVCodec) (bytes : List Int)
    (env : CreateEnv) (h1 : env.ctxAllocOk = true)
    (h2 : env.extradataAllocOk = true) (h3 : 0 ≤ env.openResult) :
    ∃ ctx, createContext codec (some bytes) env = some ctx ∧
      ctx.extradata_size = (bytes.length : Int) ∧
      ctx.extradata = some (bytes ++ paddingBytes env) ∧
      (paddingBytes env).length = AV_INPUT_BUFFER_PADDING_SIZE := by
  have hne : ¬ env.ctxAllocOk = false := by simp [h1]
  have hne2 : ¬ env.extradataAllocOk = false := by simp [h2]
  have hno : ¬ env.openResult < 0 := not_lt.mpr h3
  have hlen : (paddingBytes env).length = AV_INPUT_BUFFER_PADDING_SIZE := by
    simp only [paddingBytes, List.length_take, List.length_append,
      List.length_replicate]
    omega
  simp only [createContext, if_neg hne, if_neg hne2, if_neg hno]
  by_cases hv : codec.codec_type = AVMediaType.AVMEDIA_TYPE_VIDEO
  · simp only [hv, if_pos]
    exact ⟨_, rfl, rfl, rfl, hlen⟩
  · simp only [if_neg hv]
    exact ⟨_, rfl, rfl, rfl, hlen⟩

/-- C6 amended witness: one init byte with the concrete environment. -/
theorem createContext_extradata_copy_witness :
    ∃ ctx, createContext trueHdCodec (some [7]) envOk = some ctx ∧
      ctx.extradata_size = ((([7] : List Int)).length : Int) ∧
      ctx.extradata = some (([7] : List Int) ++ paddingBytes envOk) ∧
      (paddingBytes envOk).length = AV_INPUT_BUFFER_PADDING_SIZE :=
  createContext_extradata_copy trueHdCodec [7] envOk rfl rfl (by decide)

/-- The drain loop reports exactly the `sendCalled` flag it was entered
with. -/
lemma drainLoop_sendCalled (outputLimit : Int) (sc : Bool) :
    ∀ (steps : List DrainStep) (context : AVCodecContext) (outSize : Int)
      (ws : List WriteEvent),
      (drainLoop outputLimit sc context steps outSize ws).sendCalled = sc := by
  intro steps
  induction steps with
  | nil => intro context outSize ws; rfl
  | cons s rest ih =>
    intro context outSize ws
    cases s with
    | allocFail => rfl
    | recvErr code =>
      simp only [drainLoop]
      split <;> rfl
    | recvFrame f =>
      simp only [drainLoop]
      split
      · split <;> rfl
      · cases hp : processAudioFrame context f outSize outputLimit with
        | fatal code c2 => simp [hp]
        | ok b c2 => simp [hp, ih]

/-! ## C7: an empty, non-final packet skips submission but still drains -/

/-- C7 counterexample: with input size 0 and no end-of-input, the submit
step is skipped, yet the drain loop still runs; if the library had a video
frame buffered from an earlier call, the call returns 8 bytes, not 0. -/
theorem decode_empty_packet_cex :
    (decodePacket ctxVideo 0 false 8 ⟨0, [.recvFrame testFrame]⟩).sendCalled
        = false ∧
    (decodePacket ctxVideo 0 false 8 ⟨0, [.recvFrame testFrame]⟩).ret = 8 ∧
    ((8 : Int) ≠ 0) := by
  exact ⟨rfl, rfl, by decide⟩

/-- C7 amended: with input size 0 and end-of-input false the submit step is
never invoked; the call still drains pending library output, and it returns
0 bytes exactly in the case where the library reports nothing pending (its
first drain response is "no output available yet"). -/
theorem decode_empty_packet_no_submit (context : AVCodecContext)
    (outputLimit : Int) (lib : LibBehavior) :
    ((decodePacket context 0 false outputLimit lib).sendCalled = false) ∧
    (lib.steps = [] →
      decodePacket context 0 false outputLimit lib =
        { ret := 0, writes := [], ctx := context, sendCalled := false }) ∧
    (∀ rest, lib.steps = .recvErr AVERROR_EAGAIN :: rest →
      decodePacket context 0 false outputLimit lib =
        { ret := 0, writes := [], ctx := context, sendCalled := false }) := by
  have hcond : ¬ ((0 : Int) > 0 ∨ false = true) := by norm_num
  refine ⟨?_, ?_, ?_⟩
  · simp only [decodePacket, if_neg hcond]
    exact drainLoop_sendCalled outputLimit false lib.steps context 0 []
  · intro h
    simp only [decodePacket, if_neg hcond, h, drainLoop]
  · intro rest h
    simp [decodePacket, if_neg hcond, h, drainLoop]

/-- C7 amended witness: an empty non-final packet against a library with no
pending output is a no-op. -/
theorem decode_empty_packet_no_submit_witness :
    decodePacket ctxAudio 0 false 64 ⟨5, [.recvErr AVERROR_EAGAIN]⟩ =
      { ret := 0, writes := [], ctx := ctxAudio, sendCalled := false } :=
  (decode_empty_packet_no_submit ctxAudio 64
    ⟨5, [.recvErr AVERROR_EAGAIN]⟩).2.2 [] rfl

/-- When the resampler is available (already attached, or its creation
succeeds) and appending the frame's converted byte size would exceed the
output capacity, the audio branch fails with `AVERROR_BUFFER_TOO_SMALL`. -/
lemma processAudioFrame_bufs (context : AVCodecContext) (f : AVFrameData)
    (outSize outputLimit : Int)
    (hready : context.resamplerSlot ≠ none ∨ f.openResult = 0)
    (hover : outSize + av_get_bytes_per_sample OUTPUT_FORMAT *
        context.channels * f.outSamples > outputLimit) :
    ∃ c2, processAudioFrame context f outSize outputLimit =
      .fatal AVERROR_BUFFER_TOO_SMALL c2 := by
  cases hslot : context.resamplerSlot with
  | some r =>
    refine ⟨context, ?_⟩
    simp only [processAudioFrame, hslot, audioAfterResampler]
    rw [if_pos hover]
  | none =>
    rcases hready with hn | ho
    · exact absurd hslot hn
    · refine ⟨{ context with resamplerSlot := some (mkResampler context) }, ?_⟩
      simp only [processAudioFrame, hslot]
      rw [if_neg (by simp [ho])]
      simp only [audioAfterResampler]
      rw [if_pos (by simpa using hover)]

/-! ## C5: a too-small output buffer fails distinctly with nothing written -/

/-- C5: when the next decoded unit does not fit — a video frame into a
buffer smaller than one pointer-sized handle, or an audio frame whose
converted byte size would exceed the remaining capacity — the call returns
`AVERROR_BUFFER_TOO_SMALL` and performs no write for that unit (the write
log is exactly what it was before the unit). -/
theorem decode_buffer_too_small_no_write (context : AVCodecContext)
    (f : AVFrameData) (rest : List DrainStep) (outputLimit outSize : Int)
    (ws : List WriteEvent) (sc : Bool) :
    (context.codec_type = AVMediaType.AVMEDIA_TYPE_VIDEO →
      outputLimit < SIZEOF_JLONG →
      drainLoop outputLimit sc context (.recvFrame f :: rest) outSize ws =
        { ret := AVERROR_BUFFER_TOO_SMALL, writes := ws, ctx := context,
          sendCalled := sc }) ∧
    (context.codec_type ≠ AVMediaType.AVMEDIA_TYPE_VIDEO →
      (context.resamplerSlot ≠ none ∨ f.openResult = 0) →
      outSize + av_get_bytes_per_sample OUTPUT_FORMAT * context.channels *
          f.outSamples > outputLimit →
      (drainLoop outputLimit sc context (.recvFrame f :: rest) outSize
          ws).ret = AVERROR_BUFFER_TOO_SMALL ∧
      (drainLoop outputLimit sc context (.recvFrame f :: rest) outSize
          ws).writes = ws) := by
  constructor
  · intro hv hs
    simp only [drainLoop]
    rw [if_pos hv, if_pos hs]
  · intro hv hready hover
    obtain ⟨c2, hp⟩ :=
      processAudioFrame_bufs context f outSize outputLimit hready hover
    constructor
    · simp only [drainLoop]
      rw [if_neg hv, hp]
    · simp only [drainLoop]
      rw [if_neg hv, hp]

/-- C5 witness: an audio frame converting to 400 bytes against a 10-byte
buffer fails with the distinct code and leaves the write log empty. -/
theorem decode_buffer_too_small_no_write_witness :
    (drainLoop 10 true ctxAudio [.recvFrame testFrame] 0 []).ret =
        AVERROR_BUFFER_TOO_SMALL ∧
    (drainLoop 10 true ctxAudio [.recvFrame testFrame] 0 []).writes = [] :=
  (decode_buffer_too_small_no_write ctxAudio testFrame [] 10 0 [] true).2
    (by decide) (Or.inr rfl) (by decide)

/-- The audio conversion step never changes the context it is given. -/
lemma audioAfterResampler_context (context : AVCodecContext)
    (f : AVFrameData) (outSize outputLimit : Int) :
    (audioAfterResampler context f outSize outputLimit).context = context := by
  simp only [audioAfterResampler]
  split_ifs <;> rfl

/-- With a resampler already attached the audio branch leaves the context
unchanged: the attached instance is the one reused. -/
lemma processAudioFrame_context_of_some (context : AVCodecContext)
    (f : AVFrameData) (outSize outputLimit : Int) (r : Resampler)
    (h : context.resamplerSlot = some r) :
    (processAudioFrame context f outSize outputLimit).context = context := by
  simp only [processAudioFrame, h]
  exact audioAfterResampler_context context f outSize outputLimit

/-- With no resampler attached and a successful `avresample_open`, the audio
branch leaves behind exactly the lazily created instance in the slot. -/
lemma processAudioFrame_creates (context : AVCodecContext) (f : AVFrameData)
    (outSize outputLimit : Int) (h : context.resamplerSlot = none)
    (ho : f.openResult = 0) :
    (processAudioFrame context f outSize outputLimit).context =
      { context with resamplerSlot := some (mkResampler context) } := by
  simp only [processAudioFrame, h]
  rw [if_neg (by simp [ho])]
  exact audioAfterResampler_context _ f outSize outputLimit

/-- With no resampler attached and a failing `avresample_open`, the audio
branch fails with the open result and attaches nothing. -/
lemma processAudioFrame_fails_of_openErr (context : AVCodecContext)
    (f : AVFrameData) (outSize outputLimit : Int)
    (h : context.resamplerSlot = none) (ho : f.openResult ≠ 0) :
    processAudioFrame context f outSize outputLimit =
      .fatal f.openResult context := by
  simp only [processAudioFrame, h]
  rw [if_pos ho]

/-- The drain loop never detaches or replaces an attached resampler. -/
lemma drainLoop_slot_some (outputLimit : Int) (sc : Bool) (r : Resampler) :
    ∀ (steps : List DrainStep) (context : AVCodecContext) (outSize : Int)
      (ws : List WriteEvent), context.resamplerSlot = some r →
      (drainLoop outputLimit sc context steps outSize ws).ctx.resamplerSlot =
        some r := by
  intro steps
  induction steps with
  | nil => intro context outSize ws h; exact h
  | cons s rest ih =>
    intro context outSize ws h
    cases s with
    | allocFail => exact h
    | recvErr code =>
      simp only [drainLoop]
      split <;> exact h
    | recvFrame f =>
      simp only [drainLoop]
      split
      · split <;> exact h
      · have hc := processAudioFrame_context_of_some context f outSize
          outputLimit r h
        cases hp : processAudioFrame context f outSize outputLimit with
        | fatal code c2 =>
          rw [hp] at hc
          simp only [AudioStepResult.context] at hc
          show c2.resamplerSlot = some r
          rw [hc]
          exact h
        | ok b c2 =>
          rw [hp] at hc
          simp only [AudioStepResult.context] at hc
          show (drainLoop outputLimit sc c2 rest (outSize + b)
            (ws ++ [.audioBytes outSize b])).ctx.resamplerSlot = some r
          exact ih c2 _ _ (by rw [hc]; exact h)

/-- Starting from an empty slot, the drain loop attaches at most the one
lazily created resampler of this session. -/
lemma drainLoop_slot_none (outputLimit : Int) (sc : Bool) :
    ∀ (steps : List DrainStep) (context : AVCodecContext) (outSize : Int)
      (ws : List WriteEvent), context.resamplerSlot = none →
      (drainLoop outputLimit sc context steps outSize ws).ctx.resamplerSlot =
          none ∨
      (drainLoop outputLimit sc context steps outSize ws).ctx.resamplerSlot =
        some (mkResampler context) := by
  intro steps
  induction steps with
  | nil => intro context outSize ws h; exact Or.inl h
  | cons s rest ih =>
    intro context outSize ws h
    cases s with
    | allocFail => exact Or.inl h
    | recvErr code =>
      simp only [drainLoop]
      split <;> exact Or.inl h
    | recvFrame f =>
      simp only [drainLoop]
      split
      · split <;> exact Or.inl h
      · by_cases ho : f.openResult = 0
        · have hc := processAudioFrame_creates context f outSize outputLimit
            h ho
          cases hp : processAudioFrame context f outSize outputLimit with
          | fatal code c2 =>
            rw [hp] at hc
            simp only [AudioStepResult.context] at hc
            right
            show c2.resamplerSlot = some (mkResampler context)
            rw [hc]
          | ok b c2 =>
            rw [hp] at hc
            simp only [AudioStepResult.context] at hc
            right
            show (drainLoop outputLimit sc c2 rest (outSize + b)
              (ws ++ [.audioBytes outSize b])).ctx.resamplerSlot =
                some (mkResampler context)
            exact drainLoop_slot_some outputLimit sc (mkResampler context)
              rest c2 _ _ (by rw [hc])
        · have hfail := processAudioFrame_fails_of_openErr context f outSize
            outputLimit h ho
          rw [hfail]
          exact Or.inl h

/-- When the first drained unit is an audio frame and the resampler creation
succeeds, the call ends with the lazily created resampler attached. -/
lemma drainLoop_creates (outputLimit : Int) (sc : Bool)
    (context : AVCodecContext) (f : AVFrameData) (rest : List DrainStep)
    (outSize : Int) (ws : List WriteEvent)
    (hv : ¬ context.codec_type = AVMediaType.AVMEDIA_TYPE_VIDEO)
    (h : context.resamplerSlot = none) (ho : f.openResult = 0) :
    (drainLoop outputLimit sc context (.recvFrame f :: rest) outSize
        ws).ctx.resamplerSlot = some (mkResampler context) := by
  simp only [drainLoop]
  rw [if_neg hv]
  have hc := processAudioFrame_creates context f outSize outputLimit h ho
  cases hp : processAudioFrame context f outSize outputLimit with
  | fatal code c2 =>
    rw [hp] at hc
    simp only [AudioStepResult.context] at hc
    show c2.resamplerSlot = some (mkResampler context)
    rw [hc]
  | ok b c2 =>
    rw [hp] at hc
    simp only [AudioStepResult.context] at hc
    show (drainLoop outputLimit sc c2 rest (outSize + b)
      (ws ++ [.audioBytes outSize b])).ctx.resamplerSlot =
        some (mkResampler context)
    exact drainLoop_slot_some outputLimit sc (mkResampler context) rest c2 _ _
      (by rw [hc])

/-- A `decodePacket` call either ends in the feed stage with the context
untouched, or runs the drain loop from a fresh cursor. -/
lemma decodePacket_ctx_cases (context : AVCodecContext) (packetSize : Int)
    (endOfInput : Bool) (outputLimit : Int) (lib : LibBehavior) :
    (decodePacket context packetSize endOfInput outputLimit lib).ctx =
      context ∨
    ∃ sc, decodePacket context packetSize endOfInput outputLimit lib =
      drainLoop outputLimit sc context lib.steps 0 [] := by
  unfold decodePacket
  split
  · split
    · split
      · exact Or.inr ⟨true, rfl⟩
      · exact Or.inl rfl
    · exact Or.inr ⟨true, rfl⟩
  · exact Or.inr ⟨false, rfl⟩

/-! ## C8: at most one resampler per session, lazily created, reused,
cleared only on release -/

/-- C8: the lazily created resampler converts the session's source sample
format to 16-bit PCM while keeping channel layout and sample rate; an
attached resampler instance survives any decode call unchanged (it is the
one reused); a call starting with an empty slot attaches at most the one
lazily created instance, and does attach it when the first drained unit is
an audio frame whose resampler open succeeds; releasing the session clears
the slot. -/
theorem resampler_lifecycle (context : AVCodecContext) (packetSize : Int)
    (endOfInput : Bool) (outputLimit : Int) (lib : LibBehavior) :
    ((mkResampler context).in_sample_fmt = context.sample_fmt ∧
     (mkResampler context).out_sample_fmt = AVSampleFormat.AV_SAMPLE_FMT_S16 ∧
     (mkResampler context).out_channel_layout =
        (mkResampler context).in_channel_layout ∧
     (mkResampler context).out_sample_rate =
        (mkResampler context).in_sample_rate) ∧
    (∀ r, context.resamplerSlot = some r →
      (decodePacket context packetSize endOfInput outputLimit
          lib).ctx.resamplerSlot = some r) ∧
    (context.resamplerSlot = none →
      (decodePacket context packetSize endOfInput outputLimit
          lib).ctx.resamplerSlot = none ∨
      (decodePacket context packetSize endOfInput outputLimit
          lib).ctx.resamplerSlot = some (mkResampler context)) ∧
    (∀ f rest, context.codec_type ≠ AVMediaType.AVMEDIA_TYPE_VIDEO →
      context.resamplerSlot = none → f.openResult = 0 →
      lib.steps = DrainStep.recvFrame f :: rest →
      ((¬ packetSize > 0 ∧ endOfInput = false) ∨ lib.sendResult = 0 ∨
        lib.sendResult = AVERROR_EOF ∨
        lib.sendResult = AVERROR_INVALIDDATA) →
      (decodePacket context packetSize endOfInput outputLimit
          lib).ctx.resamplerSlot = some (mkResampler context)) ∧
    (releaseContext (some context)).finalSlot = none := by
  refine ⟨⟨rfl, rfl, rfl, rfl⟩, ?_, ?_, ?_, ?_⟩
  · intro r h
    rcases decodePacket_ctx_cases context packetSize endOfInput outputLimit
      lib with hc | ⟨sc, hd⟩
    · rw [hc]
      exact h
    · rw [hd]
      exact drainLoop_slot_some outputLimit sc r lib.steps context 0 [] h
  · intro h
    rcases decodePacket_ctx_cases context packetSize endOfInput outputLimit
      lib with hc | ⟨sc, hd⟩
    · rw [hc]
      exact Or.inl h
    · rw [hd]
      exact drainLoop_slot_none outputLimit sc lib.steps context 0 [] h
  · intro f rest hv h ho hsteps hfeed
    obtain ⟨sc, hd⟩ := decodePacket_reaches_drain context packetSize
      endOfInput outputLimit lib hfeed
    rw [hsteps] at hd
    rw [hd]
    exact drainLoop_creates outputLimit sc context f rest 0 [] hv h ho
  · cases hs : context.resamplerSlot <;> simp [releaseContext, hs]

/-- C8 witness: a session with an attached resampler keeps exactly that
instance across a decode call that drains an audio frame. -/
theorem resampler_lifecycle_witness :
    (decodePacket ctxAudioR 1 false 1000
        ⟨0, [.recvFrame testFrame]⟩).ctx.resamplerSlot =
      some (mkResampler ctxAudio) :=
  (resampler_lifecycle ctxAudioR 1 false 1000
    ⟨0, [.recvFrame testFrame]⟩).2.1 (mkResampler ctxAudio) rfl
